import Mathlib

/-!
Verification development for the salt_and_pepper generative-art engine.

The source is TypeScript; all `number` values are modelled as exact reals.
The per-entity drawing state machine (`Ellipse.update`, `Ellipse.resetDrawingParams`),
the ribbon geometry builder (`Ellipse.updateGeometry`), the set-level drift cycle
(`EllipseSetBase.updateCycle` / `EllipseSetBase.update`) and the organic shape
generator (`createParticleGeometry`) are embedded as pure functions below.
Mutation of `this.data` is modelled as explicit state passing; `Math.random()`
draws are passed in as an explicit stream of values in `[0, 1)`.
-/

noncomputable section

open Real

/-- Constants from `src/Config.ts` (`CONFIG`). -/
def CONFIG.CYCLE_INTERVAL : ℝ := 1.2

/-- `UNIFIED_DRAW_SPEED` from `src/Config.ts`. -/
def CONFIG.UNIFIED_DRAW_SPEED : ℝ := 1.0

/-- `UNIFIED_TAIL_DELAY = 2 * Math.PI * 0.85` from `src/Config.ts`. -/
def CONFIG.UNIFIED_TAIL_DELAY : ℝ := 2 * Real.pi * 0.85

/-- `DEFAULT_ORIGIN_SCALE` from `src/Config.ts`. -/
def CONFIG.DEFAULT_ORIGIN_SCALE : ℝ := 0.13

/-- The fields of `EllipseData` (src/Ellipse.ts) relevant to the drawing state
machine, plus `containerRotZ` for `container.rotation.z` and `meshesVisible`
for the shared visibility flag of the entity's ribbon meshes
(`d.meshes.forEach(m => m.visible = ...)`; all ribbon meshes of one entity are
always set together). -/
@[ext]
structure ArcState where
  xRadius : ℝ
  yRadius : ℝ
  rotation : ℝ
  containerRotZ : ℝ
  startAngle : ℝ
  currentStartAngle : ℝ
  currentEndAngle : ℝ
  targetEndAngle : ℝ
  drawSpeed : ℝ
  tailDelay : ℝ
  finished : Bool
  meshesVisible : Bool

/-- The `disappearanceDelayBuffer = 0.5` constant inside `Ellipse.update`. -/
def disappearanceDelayBuffer : ℝ := 0.5

/-- One decrement-and-clamp move of the drawing state machine:
`x -= speed; if (x < target) x = target;` (src/Ellipse.ts lines 508-509 and 517-518). -/
def stepClamped (x target speed : ℝ) : ℝ :=
  if x - speed < target then target else x - speed

/-- The state effect of `Ellipse.updateGeometry` on the ribbon-mesh visibility flag
(src/Ellipse.ts lines 397-402): if the interaction flag is off or the angular span
is below 0.001 rad the meshes are hidden, otherwise shown.  The vertex-buffer
output of the same function is modelled separately by `Ellipse.updateGeometryRun`. -/
def applyUpdateGeometry (hasInteracted : Bool) (d : ArcState) : ArcState :=
  { d with meshesVisible :=
      if hasInteracted = false ∨ |d.currentStartAngle - d.currentEndAngle| < 0.001
      then false else true }

/-- `Ellipse.resetDrawingParams` (src/Ellipse.ts lines 489-499): reinitializes the
four angles and the finished flag, re-applies the entity rotation to the container
transform, then rebuilds geometry (modelled by its visibility effect). -/
def Ellipse.resetDrawingParams (hasInteracted : Bool) (d : ArcState) : ArcState :=
  applyUpdateGeometry hasInteracted
    { d with startAngle := 0
             currentStartAngle := 0
             currentEndAngle := 0
             targetEndAngle := -(2 * Real.pi)
             finished := false
             containerRotZ := d.rotation }

/-- `Ellipse.update` (src/Ellipse.ts lines 501-528).  Returns the new state and
the `animating` flag the method returns.  The head (`currentEndAngle`) is
decremented by `drawSpeed` and clamped at `targetEndAngle`; the tail
(`currentStartAngle`) moves once `startAngle - currentEndAngle` exceeds
`tailDelay + disappearanceDelayBuffer` or the head has reached the target, with
the same clamp; `finished` is set when `currentStartAngle <= targetEndAngle`;
geometry is rebuilt only when something moved. -/
def Ellipse.update (hasInteracted : Bool) (d : ArcState) : ArcState × Bool :=
  if d.finished then (d, false)
  else
    let movedHead : Bool :=
      if d.currentEndAngle > d.targetEndAngle then true else false
    let ce1 : ℝ :=
      if d.currentEndAngle > d.targetEndAngle
      then stepClamped d.currentEndAngle d.targetEndAngle d.drawSpeed
      else d.currentEndAngle
    let movedTail : Bool :=
      if (d.startAngle - ce1 > d.tailDelay + disappearanceDelayBuffer ∨ ce1 = d.targetEndAngle)
          ∧ d.currentStartAngle > d.targetEndAngle
      then true else false
    let cs1 : ℝ :=
      if (d.startAngle - ce1 > d.tailDelay + disappearanceDelayBuffer ∨ ce1 = d.targetEndAngle)
          ∧ d.currentStartAngle > d.targetEndAngle
      then stepClamped d.currentStartAngle d.targetEndAngle d.drawSpeed
      else d.currentStartAngle
    let fin : Bool := if cs1 ≤ d.targetEndAngle then true else d.finished
    let animating : Bool := movedHead || movedTail
    let d1 : ArcState := { d with currentEndAngle := ce1, currentStartAngle := cs1, finished := fin }
    (if animating then applyUpdateGeometry hasInteracted d1 else d1, animating)

/-- One simulation tick with the interaction flag on: the state part of `Ellipse.update`. -/
def Ellipse.tick (d : ArcState) : ArcState := (Ellipse.update true d).1

/-- Iterated ticks. -/
def Ellipse.tickN (n : ℕ) (d : ArcState) : ArcState := Ellipse.tick^[n] d

/-- The monotone ordering invariant on the four drawing angles. -/
def angleOrdered (d : ArcState) : Prop :=
  d.targetEndAngle ≤ d.currentEndAngle ∧
  d.currentEndAngle ≤ d.currentStartAngle ∧
  d.currentStartAngle ≤ d.startAngle

lemma applyUpdateGeometry_angles (hi : Bool) (d : ArcState) :
    (applyUpdateGeometry hi d).currentStartAngle = d.currentStartAngle ∧
    (applyUpdateGeometry hi d).currentEndAngle = d.currentEndAngle ∧
    (applyUpdateGeometry hi d).startAngle = d.startAngle ∧
    (applyUpdateGeometry hi d).targetEndAngle = d.targetEndAngle ∧
    (applyUpdateGeometry hi d).drawSpeed = d.drawSpeed ∧
    (applyUpdateGeometry hi d).finished = d.finished := by
  simp [applyUpdateGeometry]

lemma angleOrdered_applyUpdateGeometry (hi : Bool) (d : ArcState) :
    angleOrdered (applyUpdateGeometry hi d) ↔ angleOrdered d := by
  simp [applyUpdateGeometry, angleOrdered]

/-- `resetDrawingParams` establishes the ordering invariant. -/
lemma reset_angleOrdered (hi : Bool) (d : ArcState) :
    angleOrdered (Ellipse.resetDrawingParams hi d) := by
  have hπ : (0:ℝ) < Real.pi := Real.pi_pos
  simp only [Ellipse.resetDrawingParams, angleOrdered_applyUpdateGeometry]
  refine ⟨by simp; nlinarith, by simp, by simp⟩

/-- `Ellipse.update` preserves the ordering invariant (for a nonnegative draw speed). -/
lemma update_angleOrdered (hi : Bool) (d : ArcState)
    (hds : 0 ≤ d.drawSpeed) (h : angleOrdered d) :
    angleOrdered (Ellipse.update hi d).1 := by
  obtain ⟨h1, h2, h3⟩ := h
  simp only [Ellipse.update, stepClamped]
  split_ifs <;> simp_all [angleOrdered, applyUpdateGeometry]
  all_goals first
    | linarith
    | (refine ⟨?_, ?_, ?_⟩ <;> linarith)
    | (refine ⟨?_, ?_⟩ <;> linarith)

/-- `Ellipse.update` does not change the draw speed. -/
lemma update_drawSpeed (hi : Bool) (d : ArcState) :
    (Ellipse.update hi d).1.drawSpeed = d.drawSpeed := by
  simp only [Ellipse.update, stepClamped]
  split_ifs <;> simp [applyUpdateGeometry]

/-- The tail angle after `Ellipse.update` never lies strictly below `targetEndAngle`
when the ordering invariant held before the call. -/
lemma update_currentStartAngle_ge (hi : Bool) (d : ArcState) (h : angleOrdered d) :
    d.targetEndAngle ≤ (Ellipse.update hi d).1.currentStartAngle := by
  obtain ⟨h1, h2, h3⟩ := h
  simp only [Ellipse.update, stepClamped]
  split_ifs <;> simp_all [applyUpdateGeometry] <;> linarith

/-- C1: for every Arc Entity, `resetDrawingParams` establishes the ordering
`targetEndAngle ≤ currentEndAngle ≤ currentStartAngle ≤ startAngle`, one call to
`Ellipse.update` preserves it (the two moving angles are decremented by
`drawSpeed` and clamped at `targetEndAngle`, so in particular
`currentStartAngle` never drops below `currentEndAngle`), and hence the ordering
holds before and after every update call starting from the reset state. -/
theorem arc_ordering_invariant (hi : Bool) (d e : ArcState)
    (hds : 0 ≤ e.drawSpeed) (he : angleOrdered e) (hds' : 0 ≤ d.drawSpeed) :
    angleOrdered (Ellipse.resetDrawingParams hi d) ∧
    angleOrdered (Ellipse.update hi e).1 ∧
    ∀ n : ℕ, angleOrdered (Ellipse.tickN n (Ellipse.resetDrawingParams hi d)) := by
  refine ⟨reset_angleOrdered hi d, update_angleOrdered hi e hds he, ?_⟩
  intro n
  induction n with
  | zero => exact reset_angleOrdered hi d
  | succ n ih =>
      have hspeed : 0 ≤ (Ellipse.tickN n (Ellipse.resetDrawingParams hi d)).drawSpeed := by
        have : ∀ m : ℕ, (Ellipse.tickN m (Ellipse.resetDrawingParams hi d)).drawSpeed
            = d.drawSpeed := by
          intro m
          induction m with
          | zero =>
              simp [Ellipse.tickN, Ellipse.resetDrawingParams, applyUpdateGeometry]
          | succ m ihm =>
              rw [Ellipse.tickN, Function.iterate_succ_apply'] at *
              rw [Ellipse.tick, update_drawSpeed]
              exact ihm
        rw [this n]; exact hds'
      rw [Ellipse.tickN, Function.iterate_succ_apply']
      exact update_angleOrdered true _ hspeed ih

/-- Witness for `arc_ordering_invariant` at a concrete state. -/
theorem arc_ordering_invariant_witness :
    angleOrdered (Ellipse.resetDrawingParams true
      ⟨1, 1, 0, 0, 0, 0, 0, -1, 1, 5, false, false⟩) ∧
    angleOrdered (Ellipse.update true
      ⟨1, 1, 0, 0, 0, 0, 0, -1, 1, 5, false, false⟩).1 ∧
    ∀ n : ℕ, angleOrdered (Ellipse.tickN n (Ellipse.resetDrawingParams true
      ⟨1, 1, 0, 0, 0, 0, 0, -1, 1, 5, false, false⟩)) :=
  arc_ordering_invariant true
    ⟨1, 1, 0, 0, 0, 0, 0, -1, 1, 5, false, false⟩
    ⟨1, 1, 0, 0, 0, 0, 0, -1, 1, 5, false, false⟩
    (by norm_num) (by refine ⟨by norm_num, by norm_num, by norm_num⟩) (by norm_num)

set_option maxHeartbeats 1600000 in
/-- C2: `finished` becomes true in `Ellipse.update` exactly when the (updated)
`currentStartAngle` equals `targetEndAngle`, and once `finished` is set a
further `update` call changes nothing and returns `false`. -/
theorem finished_iff_tail_at_target (hi : Bool) (d : ArcState) :
    (d.finished = true → Ellipse.update hi d = (d, false)) ∧
    (d.finished = false → angleOrdered d →
      ((Ellipse.update hi d).1.finished = true ↔
        (Ellipse.update hi d).1.currentStartAngle = d.targetEndAngle)) := by
  constructor
  · intro hf
    simp [Ellipse.update, hf]
  · intro hf hinv
    have hge := update_currentStartAngle_ge hi d hinv
    constructor
    · intro hfin
      refine le_antisymm ?_ hge
      obtain ⟨h1, h2, h3⟩ := hinv
      revert hfin hge
      simp only [Ellipse.update, stepClamped, hf]
      split_ifs <;> simp_all [applyUpdateGeometry] <;> intros <;> linarith
    · intro heq
      obtain ⟨h1, h2, h3⟩ := hinv
      revert heq
      simp only [Ellipse.update, stepClamped, hf]
      split_ifs <;> simp_all [applyUpdateGeometry] <;> intros <;> linarith

/-- Witness for `finished_iff_tail_at_target` at concrete states. -/
theorem finished_iff_tail_at_target_witness :
    Ellipse.update true ⟨1, 1, 0, 0, 0, -3, -3, -3, 1, 5, true, false⟩
      = (⟨1, 1, 0, 0, 0, -3, -3, -3, 1, 5, true, false⟩, false) ∧
    ((Ellipse.update true ⟨1, 1, 0, 0, 0, 0, 0, -1, 1, 5, false, false⟩).1.finished = true ↔
      (Ellipse.update true ⟨1, 1, 0, 0, 0, 0, 0, -1, 1, 5, false, false⟩).1.currentStartAngle
        = (-1 : ℝ)) :=
  ⟨(finished_iff_tail_at_target true ⟨1, 1, 0, 0, 0, -3, -3, -3, 1, 5, true, false⟩).1 rfl,
   (finished_iff_tail_at_target true ⟨1, 1, 0, 0, 0, 0, 0, -1, 1, 5, false, false⟩).2 rfl
     ⟨by norm_num, by norm_num, by norm_num⟩⟩

/-- C8: `resetDrawingParams` always yields the cycle-start drawing state
(`startAngle = currentStartAngle = currentEndAngle = 0`,
`targetEndAngle = -2π`, `finished = false`), re-applies the entity's rotation to
its container transform, and is idempotent. -/
theorem reset_postcondition_and_idempotent (hi : Bool) (d : ArcState) :
    (Ellipse.resetDrawingParams hi d).startAngle = 0 ∧
    (Ellipse.resetDrawingParams hi d).currentStartAngle = 0 ∧
    (Ellipse.resetDrawingParams hi d).currentEndAngle = 0 ∧
    (Ellipse.resetDrawingParams hi d).targetEndAngle = -(2 * Real.pi) ∧
    (Ellipse.resetDrawingParams hi d).finished = false ∧
    (Ellipse.resetDrawingParams hi d).containerRotZ = d.rotation ∧
    Ellipse.resetDrawingParams hi (Ellipse.resetDrawingParams hi d)
      = Ellipse.resetDrawingParams hi d := by
  refine ⟨rfl, rfl, rfl, rfl, rfl, rfl, ?_⟩
  ext <;> simp [Ellipse.resetDrawingParams, applyUpdateGeometry]

/-- The guarded tapering angle offset from `Ellipse.updateGeometry`
(src/Ellipse.ts line 409): `(originRadius * 0.8) / (currentRadius || 1)`.
JavaScript `x || 1` yields `1` exactly when `x` is `0`. -/
def angleOffset (originRadius currentRadius : ℝ) : ℝ :=
  originRadius * 0.8 / (if currentRadius = 0 then 1 else currentRadius)

/-- The distance of the arc tip from the entity centre
(src/Ellipse.ts lines 384-385 and 407): `sqrt(tipX^2 + tipY^2)` with
`tipX = a * cos(end)`, `tipY = b * sin(end)`. -/
def tipRadius (a b endAngle : ℝ) : ℝ :=
  Real.sqrt ((a * Real.cos endAngle) ^ 2 + (b * Real.sin endAngle) ^ 2)

/-- C7: the divisor of the tapering-angle-offset division in
`Ellipse.updateGeometry` is strictly positive for every reachable tip position
(the guard substitutes `1` exactly when the current tip radius is zero), so the
division never divides by zero: the computed `angleOffset` is an ordinary finite
real number whose product with the divisor recovers `originRadius * 0.8`. -/
theorem angle_offset_division_guarded (a b endAngle originRadius : ℝ) :
    0 < (if tipRadius a b endAngle = 0 then (1:ℝ) else tipRadius a b endAngle) ∧
    angleOffset originRadius (tipRadius a b endAngle) *
      (if tipRadius a b endAngle = 0 then (1:ℝ) else tipRadius a b endAngle)
      = originRadius * 0.8 := by
  have hnn : 0 ≤ tipRadius a b endAngle := Real.sqrt_nonneg _
  have hpos : 0 < (if tipRadius a b endAngle = 0 then (1:ℝ) else tipRadius a b endAngle) := by
    split_ifs with h
    · norm_num
    · exact lt_of_le_of_ne hnn (Ne.symm h)
  refine ⟨hpos, ?_⟩
  rw [angleOffset, div_mul_cancel₀]
  exact ne_of_gt hpos

/-- The inputs `Ellipse.updateGeometry` reads: the current drawing angles, the
two radii, the origin-marker radius, the tapering flag (`config.taperEnabled`),
the segment count and `maxHalfWidth = LINE_WIDTH / 2`. -/
structure RibbonParams where
  startA : ℝ
  endA : ℝ
  a : ℝ
  b : ℝ
  originRadius : ℝ
  taperEnabled : Bool
  segments : ℕ
  maxHalfWidth : ℝ

/-- The tapering angle offset as computed in `Ellipse.updateGeometry`
(src/Ellipse.ts lines 406-409). -/
def ribbonAngleOffset (p : RibbonParams) : ℝ :=
  angleOffset p.originRadius (tipRadius p.a p.b p.endA)

/-- `effectiveEnd` (src/Ellipse.ts lines 411-414): the end angle pulled inward
by the offset, clamped at `start`. -/
def effectiveEnd (p : RibbonParams) : ℝ :=
  if p.endA + ribbonAngleOffset p > p.startA then p.startA else p.endA + ribbonAngleOffset p

/-- `totalAngle` (src/Ellipse.ts line 448): the absolute drawn angle length. -/
def totalAngle (p : RibbonParams) : ℝ := |p.startA - effectiveEnd p|

/-- `taperThreshold` (src/Ellipse.ts lines 450-456): where along `t` the tip
taper starts, with the 0.85 fallback guarding a near-zero total drawn angle. -/
def taperThreshold (p : RibbonParams) : ℝ :=
  if totalAngle p > 0.001
  then max 0 (1 - ribbonAngleOffset p * 2.5 / totalAngle p)
  else 0.85

/-- The width factor at parameter `t` (src/Ellipse.ts lines 458-469):
`0.5 + 0.5 t²`, further multiplied in the taper branch by a factor shrinking
linearly from 1 to the target scale 0.6. -/
def widthFactorAt (p : RibbonParams) (t : ℝ) : ℝ :=
  if p.taperEnabled ∧ t > taperThreshold p then
    (if 1 - taperThreshold p > 0.0001
     then (0.5 + 0.5 * t * t) *
        (1 - (t - taperThreshold p) / (1 - taperThreshold p) * (1 - 0.6))
     else 0.5 + 0.5 * t * t)
  else 0.5 + 0.5 * t * t

/-- The half width written at parameter `t` (src/Ellipse.ts line 471). -/
def halfWidthAt (p : RibbonParams) (t : ℝ) : ℝ := p.maxHalfWidth * widthFactorAt p t

/-- The per-vertex alpha (src/Ellipse.ts line 478): `pow(t, 1.5) * 0.9`. -/
def alphaAt (t : ℝ) : ℝ := t ^ (1.5 : ℝ) * 0.9

/-- The pair of vertex positions, the half width and the alpha written for
segment index `i` by `Ellipse.updateGeometry` (src/Ellipse.ts lines 425-480). -/
structure RibbonVertex where
  pos1 : ℝ × ℝ
  pos2 : ℝ × ℝ
  halfWidth : ℝ
  alpha : ℝ

/-- The loop body of `Ellipse.updateGeometry` at segment index `i`. -/
def ribbonVertex (p : RibbonParams) (i : ℕ) : RibbonVertex :=
  let t : ℝ := (i : ℝ) / (p.segments : ℝ)
  let theta := p.startA + (effectiveEnd p - p.startA) * t
  let x := p.a * Real.cos theta
  let y := p.b * Real.sin theta
  let tx := -p.a * Real.sin theta
  let ty := p.b * Real.cos theta
  let len := Real.sqrt (tx ^ 2 + ty ^ 2)
  let nx := ty / len
  let ny := -(tx / len)
  let hw := halfWidthAt p t
  { pos1 := (x + nx * hw, y + ny * hw)
    pos2 := (x - nx * hw, y - ny * hw)
    halfWidth := hw
    alpha := alphaAt t }

/-- `Ellipse.updateGeometry` (src/Ellipse.ts lines 376-487) as a pure function:
returns the shared ribbon-mesh visibility and the list of per-segment vertex
data written to each mesh's buffers.  When hidden, nothing is written. -/
def Ellipse.updateGeometryRun (hasInteracted : Bool) (p : RibbonParams) :
    Bool × List RibbonVertex :=
  if hasInteracted = false ∨ |p.startA - p.endA| < 0.001 then (false, [])
  else (true, (List.range (p.segments + 1)).map (ribbonVertex p))

/-- The width factor always lies in `[0, 1]` for `t ∈ [0, 1]`. -/
lemma widthFactorAt_bounds (p : RibbonParams) (t : ℝ) (h0 : 0 ≤ t) (h1 : t ≤ 1) :
    0 ≤ widthFactorAt p t ∧ widthFactorAt p t ≤ 1 := by
  have hbase0 : 0 ≤ 0.5 + 0.5 * t * t := by nlinarith
  have hbase1 : 0.5 + 0.5 * t * t ≤ 1 := by nlinarith
  rw [widthFactorAt]
  split_ifs with hA hB
  · obtain ⟨-, ht⟩ := hA
    have hrange : (0:ℝ) < 1 - taperThreshold p := by linarith [hB]
    have htap0 : 0 ≤ (t - taperThreshold p) / (1 - taperThreshold p) :=
      div_nonneg (by linarith) (le_of_lt hrange)
    have htap1 : (t - taperThreshold p) / (1 - taperThreshold p) ≤ 1 := by
      rw [div_le_one hrange]; linarith
    constructor
    · nlinarith
    · nlinarith
  · exact ⟨hbase0, hbase1⟩
  · exact ⟨hbase0, hbase1⟩

/-- C4: `Ellipse.updateGeometry` hides all ribbon meshes and writes nothing
whenever the angular span is below 0.001 rad; and every half width it ever
writes lies in `[0, maxHalfWidth]` while every alpha lies in `[0, 0.9]`
(given a nonnegative `maxHalfWidth` and a positive segment count). -/
theorem geometry_hidden_and_bounded (hi : Bool) (p : RibbonParams)
    (hmw : 0 ≤ p.maxHalfWidth) (hseg : 0 < p.segments) :
    (|p.startA - p.endA| < 0.001 → Ellipse.updateGeometryRun hi p = (false, [])) ∧
    (∀ v ∈ (Ellipse.updateGeometryRun hi p).2,
      0 ≤ v.halfWidth ∧ v.halfWidth ≤ p.maxHalfWidth ∧ 0 ≤ v.alpha ∧ v.alpha ≤ 0.9) := by
  constructor
  · intro hsmall
    rw [Ellipse.updateGeometryRun, if_pos (Or.inr hsmall)]
  · intro v hv
    rw [Ellipse.updateGeometryRun] at hv
    split_ifs at hv with hcond
    · simp at hv
    · simp only [List.mem_map, List.mem_range] at hv
      obtain ⟨i, hi_lt, rfl⟩ := hv
      have hsegR : (0:ℝ) < (p.segments : ℝ) := by exact_mod_cast hseg
      have ht0 : 0 ≤ (i : ℝ) / (p.segments : ℝ) :=
        div_nonneg (Nat.cast_nonneg i) (le_of_lt hsegR)
      have ht1 : (i : ℝ) / (p.segments : ℝ) ≤ 1 := by
        rw [div_le_one hsegR]
        exact_mod_cast Nat.lt_succ_iff.mp hi_lt
      obtain ⟨hw0, hw1⟩ := widthFactorAt_bounds p _ ht0 ht1
      refine ⟨?_, ?_, ?_, ?_⟩
      · exact mul_nonneg hmw hw0
      · calc p.maxHalfWidth * widthFactorAt p ((i : ℝ) / (p.segments : ℝ))
            ≤ p.maxHalfWidth * 1 := by
              exact mul_le_mul_of_nonneg_left hw1 hmw
          _ = p.maxHalfWidth := mul_one _
      · exact mul_nonneg (Real.rpow_nonneg ht0 _) (by norm_num)
      · calc ((i : ℝ) / (p.segments : ℝ)) ^ (1.5:ℝ) * 0.9 ≤ 1 * 0.9 := by
              have := Real.rpow_le_one ht0 ht1 (by norm_num : (0:ℝ) ≤ 1.5)
              nlinarith
          _ = 0.9 := one_mul _

/-- Witness for `geometry_hidden_and_bounded` at a concrete parameter record. -/
theorem geometry_hidden_and_bounded_witness :
    (|(0:ℝ) - (-3)| < 0.001 →
      Ellipse.updateGeometryRun true ⟨0, -3, 2, 1, 0.3, true, 4, 1⟩ = (false, [])) ∧
    (∀ v ∈ (Ellipse.updateGeometryRun true ⟨0, -3, 2, 1, 0.3, true, 4, 1⟩).2,
      0 ≤ v.halfWidth ∧ v.halfWidth ≤ (1:ℝ) ∧ 0 ≤ v.alpha ∧ v.alpha ≤ 0.9) :=
  geometry_hidden_and_bounded true ⟨0, -3, 2, 1, 0.3, true, 4, 1⟩
    (by norm_num) (by norm_num)

/-- The first wrap loop of the rotation interpolation in
`EllipseSetBase.updateCycle` (part_002 line 89): `while (diff > PI) diff -= PI * 2`. -/
def wrapDown (x : ℝ) : ℝ :=
  if h : x > Real.pi then wrapDown (x - 2 * Real.pi) else x
termination_by Nat.ceil ((x - Real.pi) / (2 * Real.pi))
decreasing_by
  have hπ : (0:ℝ) < Real.pi := Real.pi_pos
  have hq : 0 < (x - Real.pi) / (2 * Real.pi) := div_pos (by linarith) (by positivity)
  have h1 : 1 ≤ ⌈(x - Real.pi) / (2 * Real.pi)⌉₊ := Nat.one_le_ceil_iff.mpr hq
  have key : (x - 2 * Real.pi - Real.pi) / (2 * Real.pi)
      = (x - Real.pi) / (2 * Real.pi) - 1 := by field_simp; ring
  rw [key]
  have h2 : ⌈(x - Real.pi) / (2 * Real.pi) - 1⌉₊ ≤ ⌈(x - Real.pi) / (2 * Real.pi)⌉₊ - 1 := by
    rw [Nat.ceil_le, Nat.cast_sub h1, Nat.cast_one]
    linarith [Nat.le_ceil ((x - Real.pi) / (2 * Real.pi))]
  omega

/-- The second wrap loop of the rotation interpolation in
`EllipseSetBase.updateCycle` (part_002 line 90): `while (diff < -PI) diff += PI * 2`. -/
def wrapUp (x : ℝ) : ℝ :=
  if h : x < -Real.pi then wrapUp (x + 2 * Real.pi) else x
termination_by Nat.ceil ((-Real.pi - x) / (2 * Real.pi))
decreasing_by
  have hπ : (0:ℝ) < Real.pi := Real.pi_pos
  have hq : 0 < (-Real.pi - x) / (2 * Real.pi) := div_pos (by linarith) (by positivity)
  have h1 : 1 ≤ ⌈(-Real.pi - x) / (2 * Real.pi)⌉₊ := Nat.one_le_ceil_iff.mpr hq
  have key : (-Real.pi - (x + 2 * Real.pi)) / (2 * Real.pi)
      = (-Real.pi - x) / (2 * Real.pi) - 1 := by field_simp; ring
  rw [key]
  have h2 : ⌈(-Real.pi - x) / (2 * Real.pi) - 1⌉₊ ≤ ⌈(-Real.pi - x) / (2 * Real.pi)⌉₊ - 1 := by
    rw [Nat.ceil_le, Nat.cast_sub h1, Nat.cast_one]
    linarith [Nat.le_ceil ((-Real.pi - x) / (2 * Real.pi))]
  omega

/-- The wrap-aware rotation difference from `EllipseSetBase.updateCycle`
(part_002 lines 88-90): the raw difference pushed down below `π`, then up
above `-π`. -/
def normalizeAngleDiff (x : ℝ) : ℝ := wrapUp (wrapDown x)

lemma wrapDown_le (x : ℝ) : wrapDown x ≤ Real.pi := by
  induction x using wrapDown.induct with
  | case1 x h ih => rw [wrapDown, dif_pos h]; exact ih
  | case2 x h => rw [wrapDown, dif_neg h]; linarith

lemma wrapUp_ge (x : ℝ) : -Real.pi ≤ wrapUp x := by
  induction x using wrapUp.induct with
  | case1 x h ih => rw [wrapUp, dif_pos h]; exact ih
  | case2 x h => rw [wrapUp, dif_neg h]; linarith

lemma wrapUp_le (x : ℝ) : x ≤ Real.pi → wrapUp x ≤ Real.pi := by
  induction x using wrapUp.induct with
  | case1 x h ih =>
      intro _
      rw [wrapUp, dif_pos h]
      exact ih (by nlinarith [Real.pi_pos])
  | case2 x h =>
      intro hx
      rw [wrapUp, dif_neg h]
      exact hx

/-- The normalized rotation difference always lies in the closed interval `[-π, π]`. -/
lemma normalizeAngleDiff_mem (x : ℝ) :
    normalizeAngleDiff x ∈ Set.Icc (-Real.pi) Real.pi :=
  ⟨wrapUp_ge _, wrapUp_le _ (wrapDown_le x)⟩

/-- The `lerpFactor = 0.1` constant of `EllipseSetBase.updateCycle` (part_002 line 84). -/
def lerpFactor : ℝ := 0.1

/-- The radius smoothing step of `EllipseSetBase.updateCycle` (part_002 lines 85-86):
`radius += (target - radius) * lerpFactor`. -/
def updateCycleRadiusStep (current target : ℝ) : ℝ :=
  current + (target - current) * lerpFactor

/-- Iterated radius smoothing steps toward a fixed target. -/
def driftIter (target : ℝ) (n : ℕ) (c : ℝ) : ℝ :=
  (fun x => updateCycleRadiusStep x target)^[n] c

/-- The per-entity shape update of one drift cycle (part_002 lines 84-91):
both radii are lerped toward the cycle targets and the rotation moves by the
wrap-normalized difference times `lerpFactor`. -/
def driftEntity (tX tY tRot : ℝ) (e : ArcState) : ArcState :=
  { e with xRadius := updateCycleRadiusStep e.xRadius tX
           yRadius := updateCycleRadiusStep e.yRadius tY
           rotation := e.rotation + normalizeAngleDiff (tRot - e.rotation) * lerpFactor }

/-- Closed form of the iterated radius smoothing: the distance to a fixed target
shrinks by the factor 0.9 each cycle. -/
lemma driftIter_sub_target (T c : ℝ) : ∀ n : ℕ, driftIter T n c - T = 0.9 ^ n * (c - T) := by
  intro n
  induction n with
  | zero => simp [driftIter]
  | succ n ih =>
      have hit : driftIter T (n + 1) c = updateCycleRadiusStep (driftIter T n c) T := by
        rw [driftIter, driftIter, Function.iterate_succ_apply']
      rw [hit, pow_succ]
      simp only [updateCycleRadiusStep, lerpFactor]
      linear_combination (0.9:ℝ) * ih

/-- C5: in the drift cycle, each entity's radii move exactly `lerpFactor = 10%`
of the remaining distance toward that cycle's target, and under repeated cycles
with a fixed target the radius sequence converges monotonically to the target
without ever crossing it. -/
theorem drift_cycle_lerp_convergence (e : ArcState) (tX tY tRot c T : ℝ) (n : ℕ) :
    ((driftEntity tX tY tRot e).xRadius - e.xRadius = (tX - e.xRadius) * lerpFactor) ∧
    ((driftEntity tX tY tRot e).yRadius - e.yRadius = (tY - e.yRadius) * lerpFactor) ∧
    (driftIter T n c - T = 0.9 ^ n * (c - T)) ∧
    (c ≤ T → driftIter T n c ≤ driftIter T (n + 1) c ∧ driftIter T n c ≤ T) ∧
    (T ≤ c → driftIter T (n + 1) c ≤ driftIter T n c ∧ T ≤ driftIter T n c) ∧
    Filter.Tendsto (fun m => driftIter T m c) Filter.atTop (nhds T) := by
  have hn := driftIter_sub_target T c n
  have hn1 := driftIter_sub_target T c (n + 1)
  have hpow : (0:ℝ) < 0.9 ^ n := by positivity
  have hsucc : (0.9:ℝ) ^ (n + 1) = 0.9 ^ n * 0.9 := pow_succ 0.9 n
  refine ⟨by simp [driftEntity, updateCycleRadiusStep], by simp [driftEntity, updateCycleRadiusStep],
    hn, ?_, ?_, ?_⟩
  · intro hc
    constructor <;> nlinarith
  · intro hc
    constructor <;> nlinarith
  · have heq : (fun m => driftIter T m c) = fun m => T + 0.9 ^ m * (c - T) := by
      funext m
      linarith [driftIter_sub_target T c m]
    rw [heq]
    have hz : Filter.Tendsto (fun m : ℕ => (0.9:ℝ) ^ m * (c - T)) Filter.atTop (nhds 0) := by
      simpa using
        (tendsto_pow_atTop_nhds_zero_of_lt_one (by norm_num : (0:ℝ) ≤ 0.9)
          (by norm_num : (0.9:ℝ) < 1)).mul_const (c - T)
    simpa using (tendsto_const_nhds.add hz :
      Filter.Tendsto (fun m : ℕ => T + (0.9:ℝ) ^ m * (c - T)) Filter.atTop (nhds (T + 0)))

/-- Witness for `drift_cycle_lerp_convergence` at a concrete entity and targets. -/
theorem drift_cycle_lerp_convergence_witness :
    driftIter 1 3 0 ≤ driftIter 1 4 0 ∧ driftIter 1 3 0 ≤ 1 :=
  (drift_cycle_lerp_convergence ⟨1, 1, 0, 0, 0, 0, 0, -1, 1, 5, false, false⟩
      2 3 0 0 1 3).2.2.2.1 (by norm_num)

/-- Counterexample to C6 as stated: for current rotation `0` and target rotation
`-π`, the wrap loops leave the difference at `-π`, which is not in the half-open
interval `(-π, π]` the claim asserts. -/
theorem rotation_wrap_counterexample :
    normalizeAngleDiff ((-Real.pi) - 0) = -Real.pi ∧
    normalizeAngleDiff ((-Real.pi) - 0) ∉ Set.Ioc (-Real.pi) Real.pi := by
  have hπ : (0:ℝ) < Real.pi := Real.pi_pos
  have harg : (-Real.pi) - 0 = -Real.pi := by ring
  have hdown : wrapDown (-Real.pi) = -Real.pi := by
    rw [wrapDown, dif_neg]
    push_neg
    linarith
  have hup : wrapUp (-Real.pi) = -Real.pi := by
    rw [wrapUp, dif_neg (lt_irrefl (-Real.pi))]
  have hval : normalizeAngleDiff ((-Real.pi) - 0) = -Real.pi := by
    rw [normalizeAngleDiff, harg, hdown, hup]
  refine ⟨hval, ?_⟩
  rw [hval]
  simp [Set.mem_Ioc]

/-- Value of the wrap-normalized difference for the opposite-side example
`current = π - 0.1`, `target = -π + 0.1`. -/
lemma normalizeAngleDiff_example :
    normalizeAngleDiff ((-Real.pi + 0.1) - (Real.pi - 0.1)) = 0.2 := by
  have hπ3 : (3:ℝ) < Real.pi := Real.pi_gt_three
  have harg : (-Real.pi + 0.1) - (Real.pi - 0.1) = -(2 * Real.pi) + 0.2 := by ring
  have hdown : wrapDown (-(2 * Real.pi) + 0.2) = -(2 * Real.pi) + 0.2 := by
    rw [wrapDown, dif_neg]
    push_neg
    linarith
  have hup1 : wrapUp (-(2 * Real.pi) + 0.2) = wrapUp ((-(2 * Real.pi) + 0.2) + 2 * Real.pi) := by
    rw [wrapUp, dif_pos (by linarith : -(2 * Real.pi) + 0.2 < -Real.pi)]
  have harg2 : (-(2 * Real.pi) + 0.2) + 2 * Real.pi = 0.2 := by ring
  have hup2 : wrapUp (0.2 : ℝ) = 0.2 := by
    rw [wrapUp, dif_neg]
    push_neg
    linarith
  rw [normalizeAngleDiff, harg, hdown, hup1, harg2, hup2]

/-- C6 (amended): the drift cycle's rotation difference is wrap-normalized into
the closed interval `[-π, π]` (the endpoint `-π` is reachable exactly at the
boundary, so the interval is closed, not half open), and for a target on the
opposite side of the `±π` boundary — current `π - 0.1`, target `-π + 0.1` — the
normalized difference is `0.2`, of magnitude strictly less than `π`, so the
rotation moves `0.2 · lerpFactor` along the short angular path. -/
theorem rotation_wrap_amended :
    (∀ cur tgt : ℝ, normalizeAngleDiff (tgt - cur) ∈ Set.Icc (-Real.pi) Real.pi) ∧
    normalizeAngleDiff ((-Real.pi + 0.1) - (Real.pi - 0.1)) = 0.2 ∧
    |normalizeAngleDiff ((-Real.pi + 0.1) - (Real.pi - 0.1))| < Real.pi ∧
    (driftEntity 0 0 (-Real.pi + 0.1)
        ⟨1, 1, Real.pi - 0.1, 0, 0, 0, 0, -1, 1, 5, false, false⟩).rotation
      = (Real.pi - 0.1) + 0.2 * lerpFactor := by
  have hπ3 : (3:ℝ) < Real.pi := Real.pi_gt_three
  refine ⟨fun cur tgt => normalizeAngleDiff_mem (tgt - cur), normalizeAngleDiff_example, ?_, ?_⟩
  · rw [normalizeAngleDiff_example, abs_of_pos (by norm_num)]
    linarith
  · show (Real.pi - 0.1) + normalizeAngleDiff ((-Real.pi + 0.1) - (Real.pi - 0.1)) * lerpFactor
        = (Real.pi - 0.1) + 0.2 * lerpFactor
    rw [normalizeAngleDiff_example]

/-- Single-step characterization: only the head moves (no clamp), the tail gate
is closed, nothing finishes. -/
lemma update_phase_head (d : ArcState)
    (hf : d.finished = false)
    (h1 : d.targetEndAngle < d.currentEndAngle)
    (h2 : d.targetEndAngle ≤ d.currentEndAngle - d.drawSpeed)
    (h3 : d.startAngle - (d.currentEndAngle - d.drawSpeed) ≤
      d.tailDelay + disappearanceDelayBuffer)
    (h4 : d.currentEndAngle - d.drawSpeed ≠ d.targetEndAngle)
    (h5 : d.targetEndAngle < d.currentStartAngle)
    (h6 : 0.001 ≤ |d.currentStartAngle - (d.currentEndAngle - d.drawSpeed)|) :
    Ellipse.update true d =
      ({ d with currentEndAngle := d.currentEndAngle - d.drawSpeed,
                meshesVisible := true }, true) := by
  simp only [Ellipse.update, stepClamped, applyUpdateGeometry]
  split_ifs <;> simp_all <;> linarith

/-- Single-step characterization: head and tail both move, neither clamps. -/
lemma update_phase_both (d : ArcState)
    (hf : d.finished = false)
    (h1 : d.targetEndAngle < d.currentEndAngle)
    (h2 : d.targetEndAngle ≤ d.currentEndAngle - d.drawSpeed)
    (h3 : d.tailDelay + disappearanceDelayBuffer <
      d.startAngle - (d.currentEndAngle - d.drawSpeed))
    (h5 : d.targetEndAngle < d.currentStartAngle)
    (h7 : d.targetEndAngle < d.currentStartAngle - d.drawSpeed)
    (h6 : 0.001 ≤ |(d.currentStartAngle - d.drawSpeed) -
      (d.currentEndAngle - d.drawSpeed)|) :
    Ellipse.update true d =
      ({ d with currentEndAngle := d.currentEndAngle - d.drawSpeed,
                currentStartAngle := d.currentStartAngle - d.drawSpeed,
                meshesVisible := true }, true) := by
  simp only [Ellipse.update, stepClamped, applyUpdateGeometry]
  split_ifs <;> simp_all <;> linarith

/-- Single-step characterization: the head clamps onto the target, the tail
moves without clamping. -/
lemma update_phase_head_clamps (d : ArcState)
    (hf : d.finished = false)
    (h1 : d.targetEndAngle < d.currentEndAngle)
    (h2 : d.currentEndAngle - d.drawSpeed < d.targetEndAngle)
    (h5 : d.targetEndAngle < d.currentStartAngle)
    (h7 : d.targetEndAngle < d.currentStartAngle - d.drawSpeed)
    (h6 : 0.001 ≤ |(d.currentStartAngle - d.drawSpeed) - d.targetEndAngle|) :
    Ellipse.update true d =
      ({ d with currentEndAngle := d.targetEndAngle,
                currentStartAngle := d.currentStartAngle - d.drawSpeed,
                meshesVisible := true }, true) := by
  simp only [Ellipse.update, stepClamped, applyUpdateGeometry]
  split_ifs <;> simp_all <;> linarith

/-- Single-step characterization: the head rests on the target, the tail moves
without clamping. -/
lemma update_phase_tail (d : ArcState)
    (hf : d.finished = false)
    (h1 : ¬(d.targetEndAngle < d.currentEndAngle))
    (h2 : d.currentEndAngle = d.targetEndAngle)
    (h5 : d.targetEndAngle < d.currentStartAngle)
    (h7 : d.targetEndAngle < d.currentStartAngle - d.drawSpeed)
    (h6 : 0.001 ≤ |(d.currentStartAngle - d.drawSpeed) - d.currentEndAngle|) :
    Ellipse.update true d =
      ({ d with currentStartAngle := d.currentStartAngle - d.drawSpeed,
                meshesVisible := true }, true) := by
  simp only [Ellipse.update, stepClamped, applyUpdateGeometry]
  split_ifs <;> simp_all <;> linarith

/-- Single-step characterization: the head rests on the target and the tail
clamps onto it, so the entity finishes and its meshes are hidden. -/
lemma update_phase_finish (d : ArcState)
    (hf : d.finished = false)
    (h1 : ¬(d.targetEndAngle < d.currentEndAngle))
    (h2 : d.currentEndAngle = d.targetEndAngle)
    (h5 : d.targetEndAngle < d.currentStartAngle)
    (h7 : d.currentStartAngle - d.drawSpeed < d.targetEndAngle) :
    Ellipse.update true d =
      ({ d with currentStartAngle := d.targetEndAngle,
                finished := true,
                meshesVisible := false }, true) := by
  simp only [Ellipse.update, stepClamped, applyUpdateGeometry]
  split_ifs <;> simp_all <;> linarith

/-- The drawing state of the C3 scenario: `drawSpeed = UNIFIED_DRAW_SPEED = 1`,
`tailDelay = UNIFIED_TAIL_DELAY = 2π·0.85`, `startAngle = 0`,
`targetEndAngle = -2π`, radii and rotation fixed at concrete values. -/
abbrev c3State (cs ce : ℝ) (fin mv : Bool) : ArcState :=
  { xRadius := 1, yRadius := 1, rotation := 0, containerRotZ := 0,
    startAngle := 0, currentStartAngle := cs, currentEndAngle := ce,
    targetEndAngle := -(2 * Real.pi),
    drawSpeed := CONFIG.UNIFIED_DRAW_SPEED,
    tailDelay := CONFIG.UNIFIED_TAIL_DELAY,
    finished := fin, meshesVisible := mv }

lemma c3_step1 : Ellipse.tick (c3State 0 0 false false) = c3State 0 (-1) false true := by
  have hπ1 : (3.1415:ℝ) < Real.pi := Real.pi_gt_d4
  have hπ2 : Real.pi < 3.1416 := Real.pi_lt_d4
  have h := update_phase_head (c3State 0 0 false false)
    rfl
    (by simp [CONFIG.UNIFIED_DRAW_SPEED]; linarith)
    (by simp [CONFIG.UNIFIED_DRAW_SPEED]; linarith)
    (by simp [CONFIG.UNIFIED_DRAW_SPEED, CONFIG.UNIFIED_TAIL_DELAY, disappearanceDelayBuffer]
        linarith)
    (by simp [CONFIG.UNIFIED_DRAW_SPEED]; linarith)
    (by simp [CONFIG.UNIFIED_DRAW_SPEED]; linarith)
    (by refine le_trans ?_ (le_abs_self _); simp [CONFIG.UNIFIED_DRAW_SPEED]; linarith)
  rw [Ellipse.tick, h]
  simp [CONFIG.UNIFIED_DRAW_SPEED]
  try norm_num

lemma c3_step2 : Ellipse.tick (c3State 0 (-1) false true) = c3State 0 (-2) false true := by
  have hπ1 : (3.1415:ℝ) < Real.pi := Real.pi_gt_d4
  have hπ2 : Real.pi < 3.1416 := Real.pi_lt_d4
  have h := update_phase_head (c3State 0 (-1) false true)
    rfl
    (by simp [CONFIG.UNIFIED_DRAW_SPEED]; linarith)
    (by simp [CONFIG.UNIFIED_DRAW_SPEED]; linarith)
    (by simp [CONFIG.UNIFIED_DRAW_SPEED, CONFIG.UNIFIED_TAIL_DELAY, disappearanceDelayBuffer]
        linarith)
    (by simp [CONFIG.UNIFIED_DRAW_SPEED]; linarith)
    (by simp [CONFIG.UNIFIED_DRAW_SPEED]; linarith)
    (by refine le_trans ?_ (le_abs_self _); simp [CONFIG.UNIFIED_DRAW_SPEED]; linarith)
  rw [Ellipse.tick, h]
  simp [CONFIG.UNIFIED_DRAW_SPEED]
  try norm_num

lemma c3_step3 : Ellipse.tick (c3State 0 (-2) false true) = c3State 0 (-3) false true := by
  have hπ1 : (3.1415:ℝ) < Real.pi := Real.pi_gt_d4
  have hπ2 : Real.pi < 3.1416 := Real.pi_lt_d4
  have h := update_phase_head (c3State 0 (-2) false true)
    rfl
    (by simp [CONFIG.UNIFIED_DRAW_SPEED]; linarith)
    (by simp [CONFIG.UNIFIED_DRAW_SPEED]; linarith)
    (by simp [CONFIG.UNIFIED_DRAW_SPEED, CONFIG.UNIFIED_TAIL_DELAY, disappearanceDelayBuffer]
        linarith)
    (by simp [CONFIG.UNIFIED_DRAW_SPEED]; linarith)
    (by simp [CONFIG.UNIFIED_DRAW_SPEED]; linarith)
    (by refine le_trans ?_ (le_abs_self _); simp [CONFIG.UNIFIED_DRAW_SPEED]; linarith)
  rw [Ellipse.tick, h]
  simp [CONFIG.UNIFIED_DRAW_SPEED]
  try norm_num

lemma c3_step4 : Ellipse.tick (c3State 0 (-3) false true) = c3State 0 (-4) false true := by
  have hπ1 : (3.1415:ℝ) < Real.pi := Real.pi_gt_d4
  have hπ2 : Real.pi < 3.1416 := Real.pi_lt_d4
  have h := update_phase_head (c3State 0 (-3) false true)
    rfl
    (by simp [CONFIG.UNIFIED_DRAW_SPEED]; linarith)
    (by simp [CONFIG.UNIFIED_DRAW_SPEED]; linarith)
    (by simp [CONFIG.UNIFIED_DRAW_SPEED, CONFIG.UNIFIED_TAIL_DELAY, disappearanceDelayBuffer]
        linarith)
    (by simp [CONFIG.UNIFIED_DRAW_SPEED]; linarith)
    (by simp [CONFIG.UNIFIED_DRAW_SPEED]; linarith)
    (by refine le_trans ?_ (le_abs_self _); simp [CONFIG.UNIFIED_DRAW_SPEED]; linarith)
  rw [Ellipse.tick, h]
  simp [CONFIG.UNIFIED_DRAW_SPEED]
  try norm_num

lemma c3_step5 : Ellipse.tick (c3State 0 (-4) false true) = c3State 0 (-5) false true := by
  have hπ1 : (3.1415:ℝ) < Real.pi := Real.pi_gt_d4
  have hπ2 : Real.pi < 3.1416 := Real.pi_lt_d4
  have h := update_phase_head (c3State 0 (-4) false true)
    rfl
    (by simp [CONFIG.UNIFIED_DRAW_SPEED]; linarith)
    (by simp [CONFIG.UNIFIED_DRAW_SPEED]; linarith)
    (by simp [CONFIG.UNIFIED_DRAW_SPEED, CONFIG.UNIFIED_TAIL_DELAY, disappearanceDelayBuffer]
        linarith)
    (by simp [CONFIG.UNIFIED_DRAW_SPEED]; linarith)
    (by simp [CONFIG.UNIFIED_DRAW_SPEED]; linarith)
    (by refine le_trans ?_ (le_abs_self _); simp [CONFIG.UNIFIED_DRAW_SPEED]; linarith)
  rw [Ellipse.tick, h]
  simp [CONFIG.UNIFIED_DRAW_SPEED]
  try norm_num

lemma c3_step6 : Ellipse.tick (c3State 0 (-5) false true) = c3State (-1) (-6) false true := by
  have hπ1 : (3.1415:ℝ) < Real.pi := Real.pi_gt_d4
  have hπ2 : Real.pi < 3.1416 := Real.pi_lt_d4
  have h := update_phase_both (c3State 0 (-5) false true)
    rfl
    (by simp [CONFIG.UNIFIED_DRAW_SPEED]; linarith)
    (by simp [CONFIG.UNIFIED_DRAW_SPEED]; linarith)
    (by simp [CONFIG.UNIFIED_DRAW_SPEED, CONFIG.UNIFIED_TAIL_DELAY, disappearanceDelayBuffer]
        linarith)
    (by simp [CONFIG.UNIFIED_DRAW_SPEED]; linarith)
    (by simp [CONFIG.UNIFIED_DRAW_SPEED]; linarith)
    (by refine le_trans ?_ (le_abs_self _); simp [CONFIG.UNIFIED_DRAW_SPEED]; linarith)
  rw [Ellipse.tick, h]
  simp [CONFIG.UNIFIED_DRAW_SPEED]
  try norm_num

lemma c3_step7 :
    Ellipse.tick (c3State (-1) (-6) false true)
      = c3State (-2) (-(2 * Real.pi)) false true := by
  have hπ1 : (3.1415:ℝ) < Real.pi := Real.pi_gt_d4
  have hπ2 : Real.pi < 3.1416 := Real.pi_lt_d4
  have h := update_phase_head_clamps (c3State (-1) (-6) false true)
    rfl
    (by simp [CONFIG.UNIFIED_DRAW_SPEED]; linarith)
    (by simp [CONFIG.UNIFIED_DRAW_SPEED]; linarith)
    (by simp [CONFIG.UNIFIED_DRAW_SPEED]; linarith)
    (by simp [CONFIG.UNIFIED_DRAW_SPEED]; linarith)
    (by refine le_trans ?_ (le_abs_self _); simp [CONFIG.UNIFIED_DRAW_SPEED]; linarith)
  rw [Ellipse.tick, h]
  simp [CONFIG.UNIFIED_DRAW_SPEED]
  try norm_num

lemma c3_step8 :
    Ellipse.tick (c3State (-2) (-(2 * Real.pi)) false true)
      = c3State (-3) (-(2 * Real.pi)) false true := by
  have hπ1 : (3.1415:ℝ) < Real.pi := Real.pi_gt_d4
  have hπ2 : Real.pi < 3.1416 := Real.pi_lt_d4
  have h := update_phase_tail (c3State (-2) (-(2 * Real.pi)) false true)
    rfl
    (by simp)
    rfl
    (by simp [CONFIG.UNIFIED_DRAW_SPEED]; linarith)
    (by simp [CONFIG.UNIFIED_DRAW_SPEED]; linarith)
    (by refine le_trans ?_ (le_abs_self _); simp [CONFIG.UNIFIED_DRAW_SPEED]; linarith)
  rw [Ellipse.tick, h]
  simp [CONFIG.UNIFIED_DRAW_SPEED]
  try norm_num

lemma c3_step9 :
    Ellipse.tick (c3State (-3) (-(2 * Real.pi)) false true)
      = c3State (-4) (-(2 * Real.pi)) false true := by
  have hπ1 : (3.1415:ℝ) < Real.pi := Real.pi_gt_d4
  have hπ2 : Real.pi < 3.1416 := Real.pi_lt_d4
  have h := update_phase_tail (c3State (-3) (-(2 * Real.pi)) false true)
    rfl
    (by simp)
    rfl
    (by simp [CONFIG.UNIFIED_DRAW_SPEED]; linarith)
    (by simp [CONFIG.UNIFIED_DRAW_SPEED]; linarith)
    (by refine le_trans ?_ (le_abs_self _); simp [CONFIG.UNIFIED_DRAW_SPEED]; linarith)
  rw [Ellipse.tick, h]
  simp [CONFIG.UNIFIED_DRAW_SPEED]
  try norm_num

lemma c3_step10 :
    Ellipse.tick (c3State (-4) (-(2 * Real.pi)) false true)
      = c3State (-5) (-(2 * Real.pi)) false true := by
  have hπ1 : (3.1415:ℝ) < Real.pi := Real.pi_gt_d4
  have hπ2 : Real.pi < 3.1416 := Real.pi_lt_d4
  have h := update_phase_tail (c3State (-4) (-(2 * Real.pi)) false true)
    rfl
    (by simp)
    rfl
    (by simp [CONFIG.UNIFIED_DRAW_SPEED]; linarith)
    (by simp [CONFIG.UNIFIED_DRAW_SPEED]; linarith)
    (by refine le_trans ?_ (le_abs_self _); simp [CONFIG.UNIFIED_DRAW_SPEED]; linarith)
  rw [Ellipse.tick, h]
  simp [CONFIG.UNIFIED_DRAW_SPEED]
  try norm_num

lemma c3_step11 :
    Ellipse.tick (c3State (-5) (-(2 * Real.pi)) false true)
      = c3State (-6) (-(2 * Real.pi)) false true := by
  have hπ1 : (3.1415:ℝ) < Real.pi := Real.pi_gt_d4
  have hπ2 : Real.pi < 3.1416 := Real.pi_lt_d4
  have h := update_phase_tail (c3State (-5) (-(2 * Real.pi)) false true)
    rfl
    (by simp)
    rfl
    (by simp [CONFIG.UNIFIED_DRAW_SPEED]; linarith)
    (by simp [CONFIG.UNIFIED_DRAW_SPEED]; linarith)
    (by refine le_trans ?_ (le_abs_self _); simp [CONFIG.UNIFIED_DRAW_SPEED]; linarith)
  rw [Ellipse.tick, h]
  simp [CONFIG.UNIFIED_DRAW_SPEED]
  try norm_num

lemma c3_step12 :
    Ellipse.tick (c3State (-6) (-(2 * Real.pi)) false true)
      = c3State (-(2 * Real.pi)) (-(2 * Real.pi)) true false := by
  have hπ1 : (3.1415:ℝ) < Real.pi := Real.pi_gt_d4
  have hπ2 : Real.pi < 3.1416 := Real.pi_lt_d4
  have h := update_phase_finish (c3State (-6) (-(2 * Real.pi)) false true)
    rfl
    (by simp)
    rfl
    (by simp [CONFIG.UNIFIED_DRAW_SPEED]; linarith)
    (by simp [CONFIG.UNIFIED_DRAW_SPEED]; linarith)
  rw [Ellipse.tick, h]
  try simp [CONFIG.UNIFIED_DRAW_SPEED]
  try norm_num

lemma tickN_succ (n : ℕ) (d : ArcState) :
    Ellipse.tickN (n + 1) d = Ellipse.tick (Ellipse.tickN n d) := by
  rw [Ellipse.tickN, Ellipse.tickN, Function.iterate_succ_apply']

/-- Counterexample to C3 as stated: the number of `Ellipse.update` calls after
which `currentEndAngle` reaches `targetEndAngle = -2π` is 7, not "exactly 2π":
after 6 calls the head is still at `-6 ≠ -2π`, it reaches `-2π` at call 7, and
`2π` itself lies strictly between 6 and 7, so no whole number of update calls
equals `2π`. -/
theorem c3_head_not_two_pi_calls :
    (Ellipse.tickN 6 (c3State 0 0 false false)).currentEndAngle ≠ -(2 * Real.pi) ∧
    (Ellipse.tickN 7 (c3State 0 0 false false)).currentEndAngle = -(2 * Real.pi) ∧
    (6:ℝ) < 2 * Real.pi ∧ 2 * Real.pi < 7 := by
  have hπ1 : (3.1415:ℝ) < Real.pi := Real.pi_gt_d4
  have hπ2 : Real.pi < 3.1416 := Real.pi_lt_d4
  have h0 : Ellipse.tickN 0 (c3State 0 0 false false) = c3State 0 0 false false := rfl
  have h1 : Ellipse.tickN 1 (c3State 0 0 false false) = c3State 0 (-1) false true := by
    rw [tickN_succ, h0, c3_step1]
  have h2 : Ellipse.tickN 2 (c3State 0 0 false false) = c3State 0 (-2) false true := by
    rw [tickN_succ, h1, c3_step2]
  have h3 : Ellipse.tickN 3 (c3State 0 0 false false) = c3State 0 (-3) false true := by
    rw [tickN_succ, h2, c3_step3]
  have h4 : Ellipse.tickN 4 (c3State 0 0 false false) = c3State 0 (-4) false true := by
    rw [tickN_succ, h3, c3_step4]
  have h5 : Ellipse.tickN 5 (c3State 0 0 false false) = c3State 0 (-5) false true := by
    rw [tickN_succ, h4, c3_step5]
  have h6 : Ellipse.tickN 6 (c3State 0 0 false false) = c3State (-1) (-6) false true := by
    rw [tickN_succ, h5, c3_step6]
  have h7 : Ellipse.tickN 7 (c3State 0 0 false false)
      = c3State (-2) (-(2 * Real.pi)) false true := by
    rw [tickN_succ, h6, c3_step7]
  refine ⟨?_, ?_, by linarith, by linarith⟩
  · rw [h6]
    show (-6:ℝ) ≠ -(2 * Real.pi)
    intro hc
    linarith
  · rw [h7]

/-- C3 (amended): with `drawSpeed = UNIFIED_DRAW_SPEED = 1` and
`tailDelay = UNIFIED_TAIL_DELAY = 2π·0.85`, starting from a fresh
`resetDrawingParams` state, the head `currentEndAngle` first reaches
`targetEndAngle = -2π` at update call number `⌈2π⌉ = 7` (not before), and
`finished` first becomes true at update call 12, which is not before call
number `2π + tailDelay/drawSpeed ≈ 11.62`. -/
theorem c3_draw_timeline :
    Ellipse.resetDrawingParams true (c3State 0 0 false false) = c3State 0 0 false false ∧
    (7:ℕ) = ⌈2 * Real.pi⌉₊ ∧
    (∀ n : ℕ, n < 7 →
      (Ellipse.tickN n (c3State 0 0 false false)).currentEndAngle ≠ -(2 * Real.pi)) ∧
    (Ellipse.tickN 7 (c3State 0 0 false false)).currentEndAngle = -(2 * Real.pi) ∧
    (∀ n : ℕ, n < 12 →
      (Ellipse.tickN n (c3State 0 0 false false)).finished = false) ∧
    (Ellipse.tickN 12 (c3State 0 0 false false)).finished = true ∧
    2 * Real.pi + CONFIG.UNIFIED_TAIL_DELAY / CONFIG.UNIFIED_DRAW_SPEED ≤ 12 := by
  have hπ1 : (3.1415:ℝ) < Real.pi := Real.pi_gt_d4
  have hπ2 : Real.pi < 3.1416 := Real.pi_lt_d4
  have h0 : Ellipse.tickN 0 (c3State 0 0 false false) = c3State 0 0 false false := rfl
  have h1 : Ellipse.tickN 1 (c3State 0 0 false false) = c3State 0 (-1) false true := by
    rw [tickN_succ, h0, c3_step1]
  have h2 : Ellipse.tickN 2 (c3State 0 0 false false) = c3State 0 (-2) false true := by
    rw [tickN_succ, h1, c3_step2]
  have h3 : Ellipse.tickN 3 (c3State 0 0 false false) = c3State 0 (-3) false true := by
    rw [tickN_succ, h2, c3_step3]
  have h4 : Ellipse.tickN 4 (c3State 0 0 false false) = c3State 0 (-4) false true := by
    rw [tickN_succ, h3, c3_step4]
  have h5 : Ellipse.tickN 5 (c3State 0 0 false false) = c3State 0 (-5) false true := by
    rw [tickN_succ, h4, c3_step5]
  have h6 : Ellipse.tickN 6 (c3State 0 0 false false) = c3State (-1) (-6) false true := by
    rw [tickN_succ, h5, c3_step6]
  have h7 : Ellipse.tickN 7 (c3State 0 0 false false)
      = c3State (-2) (-(2 * Real.pi)) false true := by
    rw [tickN_succ, h6, c3_step7]
  have h8 : Ellipse.tickN 8 (c3State 0 0 false false)
      = c3State (-3) (-(2 * Real.pi)) false true := by
    rw [tickN_succ, h7, c3_step8]
  have h9 : Ellipse.tickN 9 (c3State 0 0 false false)
      = c3State (-4) (-(2 * Real.pi)) false true := by
    rw [tickN_succ, h8, c3_step9]
  have h10 : Ellipse.tickN 10 (c3State 0 0 false false)
      = c3State (-5) (-(2 * Real.pi)) false true := by
    rw [tickN_succ, h9, c3_step10]
  have h11 : Ellipse.tickN 11 (c3State 0 0 false false)
      = c3State (-6) (-(2 * Real.pi)) false true := by
    rw [tickN_succ, h10, c3_step11]
  have h12 : Ellipse.tickN 12 (c3State 0 0 false false)
      = c3State (-(2 * Real.pi)) (-(2 * Real.pi)) true false := by
    rw [tickN_succ, h11, c3_step12]
  refine ⟨?_, ?_, ?_, ?_, ?_, ?_, ?_⟩
  · ext <;> simp [Ellipse.resetDrawingParams, applyUpdateGeometry] <;> try norm_num
  · rw [eq_comm, Nat.ceil_eq_iff (by norm_num)]
    constructor
    · push_cast
      linarith
    · push_cast
      linarith
  · intro n hn
    interval_cases n
    · rw [h0]; show (0:ℝ) ≠ -(2 * Real.pi); intro hc; linarith
    · rw [h1]; show (-1:ℝ) ≠ -(2 * Real.pi); intro hc; linarith
    · rw [h2]; show (-2:ℝ) ≠ -(2 * Real.pi); intro hc; linarith
    · rw [h3]; show (-3:ℝ) ≠ -(2 * Real.pi); intro hc; linarith
    · rw [h4]; show (-4:ℝ) ≠ -(2 * Real.pi); intro hc; linarith
    · rw [h5]; show (-5:ℝ) ≠ -(2 * Real.pi); intro hc; linarith
    · rw [h6]; show (-6:ℝ) ≠ -(2 * Real.pi); intro hc; linarith
  · rw [h7]
  · intro n hn
    interval_cases n
    · rw [h0]
    · rw [h1]
    · rw [h2]
    · rw [h3]
    · rw [h4]
    · rw [h5]
    · rw [h6]
    · rw [h7]
    · rw [h8]
    · rw [h9]
    · rw [h10]
    · rw [h11]
  · rw [h12]
  · simp only [CONFIG.UNIFIED_TAIL_DELAY, CONFIG.UNIFIED_DRAW_SPEED]
    norm_num
    linarith

/-- The randomized vertex count of `createParticleGeometry` (part_003 line 50):
`Math.floor(minPoints + Math.random() * (maxPoints - minPoints + 1))` with the
random draw `u ∈ [0, 1)`. -/
def particleNumPoints (minPoints maxPoints : ℕ) (u : ℝ) : ℕ :=
  ⌊(minPoints : ℝ) + u * ((maxPoints : ℝ) - (minPoints : ℝ) + 1)⌋₊

/-- The uniform angular step of the outline (part_003 line 53). -/
def particleAngleStep (numPoints : ℕ) : ℝ := 2 * Real.pi / (numPoints : ℝ)

/-- The jittered vertex angle (part_003 lines 61-62):
`theta = i * angleStep + (random - 0.5) * angleStep * 0.5`. -/
def particleTheta (numPoints i : ℕ) (uA : ℝ) : ℝ :=
  (i : ℝ) * particleAngleStep numPoints + (uA - 0.5) * particleAngleStep numPoints * 0.5

/-- The jittered vertex radius (part_003 line 64):
`r = baseRadius * (1 + (random - 0.5) * irregularity * 2)`. -/
def particleRadius (baseRadius irregularity uR : ℝ) : ℝ :=
  baseRadius * (1 + (uR - 0.5) * irregularity * 2)

/-- One outline vertex (part_003 lines 66-67): `(cos θ * r, sin θ * r)`. -/
def particlePoint (baseRadius : ℝ) (numPoints : ℕ) (irregularity : ℝ) (i : ℕ)
    (uA uR : ℝ) : ℝ × ℝ :=
  (Real.cos (particleTheta numPoints i uA) * particleRadius baseRadius irregularity uR,
   Real.sin (particleTheta numPoints i uA) * particleRadius baseRadius irregularity uR)

/-- The outline produced by `createParticleGeometry` (part_003 lines 37-82),
with the `Math.random()` draws supplied as an explicit stream: draw 0 picks the
vertex count, then each vertex `i` consumes draw `1 + 2i` for its angle jitter
and draw `2 + 2i` for its radius jitter. -/
def createParticleGeometry (baseRadius : ℝ) (minPoints maxPoints : ℕ)
    (irregularity : ℝ) (rand : ℕ → ℝ) : List (ℝ × ℝ) :=
  let n := particleNumPoints minPoints maxPoints (rand 0)
  (List.range n).map (fun i =>
    particlePoint baseRadius n irregularity i (rand (1 + 2 * i)) (rand (2 + 2 * i)))

/-- Two points in polar form with positive radii and angles that differ by a
nonzero amount less than one full turn are distinct. -/
lemma polar_point_ne (θ₁ θ₂ r₁ r₂ : ℝ) (hr₁ : 0 < r₁) (hr₂ : 0 < r₂)
    (hlt : θ₁ < θ₂) (hub : θ₂ - θ₁ < 2 * Real.pi) :
    (Real.cos θ₁ * r₁, Real.sin θ₁ * r₁) ≠ (Real.cos θ₂ * r₂, Real.sin θ₂ * r₂) := by
  intro hcontra
  rw [Prod.mk.injEq] at hcontra
  obtain ⟨hx, hy⟩ := hcontra
  have t1 := Real.sin_sq_add_cos_sq θ₁
  have t2 := Real.sin_sq_add_cos_sq θ₂
  have k1 : r₁ ^ 2 = (Real.sin θ₁ * r₁) ^ 2 + (Real.cos θ₁ * r₁) ^ 2 := by
    linear_combination (-(r₁ ^ 2)) * t1
  have k2 : r₂ ^ 2 = (Real.sin θ₂ * r₂) ^ 2 + (Real.cos θ₂ * r₂) ^ 2 := by
    linear_combination (-(r₂ ^ 2)) * t2
  have e1 : r₁ ^ 2 = r₂ ^ 2 := by rw [k1, k2, hx, hy]
  have hr : r₁ = r₂ := (sq_eq_sq hr₁.le hr₂.le).mp e1
  subst hr
  have hc : Real.cos θ₁ = Real.cos θ₂ := by
    have := mul_right_cancel₀ (ne_of_gt hr₁) hx
    exact this
  have hs : Real.sin θ₁ = Real.sin θ₂ := by
    have := mul_right_cancel₀ (ne_of_gt hr₁) hy
    exact this
  have hone : Real.cos (θ₂ - θ₁) = 1 := by
    rw [Real.cos_sub, ← hc, ← hs]
    linear_combination t1
  have hzero : θ₂ - θ₁ = 0 :=
    (Real.cos_eq_one_iff_of_lt_of_lt (by linarith) hub).mp hone
  linarith

/-- Consecutive jittered angles are strictly increasing, separated by less than
one full turn, whenever the jitter draws lie in `[0, 1)` and `numPoints ≥ 2`. -/
lemma particleTheta_gap (n i : ℕ) (uA uB : ℝ) (hn : 2 ≤ n)
    (hA0 : 0 ≤ uA) (hA1 : uA < 1) (hB0 : 0 ≤ uB) (hB1 : uB < 1) :
    particleTheta n i uA < particleTheta n (i + 1) uB ∧
    particleTheta n (i + 1) uB - particleTheta n i uA < 2 * Real.pi := by
  have hπ : (0:ℝ) < Real.pi := Real.pi_pos
  have hnR : (2:ℝ) ≤ (n : ℝ) := by exact_mod_cast hn
  have hstep : 0 < particleAngleStep n := by
    rw [particleAngleStep]
    positivity
  have hmul : particleAngleStep n * (n : ℝ) = 2 * Real.pi := by
    rw [particleAngleStep]
    field_simp
  simp only [particleTheta]
  push_cast
  constructor
  · nlinarith [hstep]
  · nlinarith [hstep, hmul, hnR]

/-- The gap between the first and the last jittered angle stays strictly inside
one full turn, whenever the jitter draws lie in `[0, 1)` and `numPoints ≥ 2`. -/
lemma particleTheta_wrap_gap (n : ℕ) (uA uB : ℝ) (hn : 2 ≤ n)
    (hA0 : 0 ≤ uA) (hA1 : uA < 1) (hB0 : 0 ≤ uB) (hB1 : uB < 1) :
    particleTheta n 0 uA < particleTheta n (n - 1) uB ∧
    particleTheta n (n - 1) uB - particleTheta n 0 uA < 2 * Real.pi := by
  have hπ : (0:ℝ) < Real.pi := Real.pi_pos
  have hnR : (2:ℝ) ≤ (n : ℝ) := by exact_mod_cast hn
  have hstep : 0 < particleAngleStep n := by
    rw [particleAngleStep]
    positivity
  have hmul : particleAngleStep n * (n : ℝ) = 2 * Real.pi := by
    rw [particleAngleStep]
    field_simp
  have hcast : ((n - 1 : ℕ) : ℝ) = (n : ℝ) - 1 := by
    rw [Nat.cast_sub (by omega : 1 ≤ n), Nat.cast_one]
  simp only [particleTheta, hcast, Nat.cast_zero]
  constructor
  · nlinarith [hstep, hnR]
  · nlinarith [hstep, hmul, hnR]

/-- C9: for `minPoints = 6`, `maxPoints = 9`, `irregularity = 0.2` and any
stream of `Math.random()` draws in `[0, 1)`, the generated outline has a vertex
count in `[6, 9]` (and exactly that many outline points), every jittered radius
stays strictly positive, every angle jitter has magnitude strictly below half
the angular step, and no two consecutive outline vertices coincide (including
the closing last-to-first pair). -/
theorem particle_outline_sound (baseRadius : ℝ) (rand : ℕ → ℝ)
    (hb : 0 < baseRadius)
    (hrand : ∀ k, 0 ≤ rand k ∧ rand k < 1) :
    6 ≤ particleNumPoints 6 9 (rand 0) ∧
    particleNumPoints 6 9 (rand 0) ≤ 9 ∧
    (createParticleGeometry baseRadius 6 9 0.2 rand).length
      = particleNumPoints 6 9 (rand 0) ∧
    (∀ k, 0 < particleRadius baseRadius 0.2 (rand k)) ∧
    (∀ uA : ℝ, 0 ≤ uA → uA < 1 →
      |(uA - 0.5) * particleAngleStep (particleNumPoints 6 9 (rand 0)) * 0.5|
        < particleAngleStep (particleNumPoints 6 9 (rand 0)) / 2) ∧
    (∀ i : ℕ, i + 1 < particleNumPoints 6 9 (rand 0) →
      particlePoint baseRadius (particleNumPoints 6 9 (rand 0)) 0.2 i
          (rand (1 + 2 * i)) (rand (2 + 2 * i))
        ≠ particlePoint baseRadius (particleNumPoints 6 9 (rand 0)) 0.2 (i + 1)
          (rand (1 + 2 * (i + 1))) (rand (2 + 2 * (i + 1)))) ∧
    particlePoint baseRadius (particleNumPoints 6 9 (rand 0)) 0.2 0
        (rand 1) (rand 2)
      ≠ particlePoint baseRadius (particleNumPoints 6 9 (rand 0)) 0.2
        (particleNumPoints 6 9 (rand 0) - 1)
        (rand (1 + 2 * (particleNumPoints 6 9 (rand 0) - 1)))
        (rand (2 + 2 * (particleNumPoints 6 9 (rand 0) - 1))) := by
  obtain ⟨hu0, hu1⟩ := hrand 0
  have h6 : 6 ≤ particleNumPoints 6 9 (rand 0) := by
    apply Nat.le_floor
    push_cast
    nlinarith
  have h9 : particleNumPoints 6 9 (rand 0) ≤ 9 := by
    have : particleNumPoints 6 9 (rand 0) < 10 := by
      rw [particleNumPoints, Nat.floor_lt (by push_cast; nlinarith)]
      push_cast
      nlinarith
    omega
  have hn2 : 2 ≤ particleNumPoints 6 9 (rand 0) := by omega
  have hradpos : ∀ k, 0 < particleRadius baseRadius 0.2 (rand k) := by
    intro k
    obtain ⟨hk0, hk1⟩ := hrand k
    rw [particleRadius]
    nlinarith
  have hsteppos : 0 < particleAngleStep (particleNumPoints 6 9 (rand 0)) := by
    rw [particleAngleStep]
    have : (0:ℝ) < (particleNumPoints 6 9 (rand 0) : ℝ) := by
      exact_mod_cast Nat.lt_of_lt_of_le (by norm_num) h6
    positivity
  refine ⟨h6, h9, ?_, hradpos, ?_, ?_, ?_⟩
  · rw [createParticleGeometry]
    simp [List.length_map, List.length_range]
  · intro uA hA0 hA1
    rw [abs_mul, abs_mul]
    have habs : |uA - 0.5| ≤ 0.5 := abs_le.mpr ⟨by linarith, by linarith⟩
    rw [abs_of_pos hsteppos]
    rw [show |(0.5:ℝ)| = 0.5 by norm_num]
    nlinarith [hsteppos]
  · intro i hi
    obtain ⟨hAa, hAb⟩ := hrand (1 + 2 * i)
    obtain ⟨hBa, hBb⟩ := hrand (1 + 2 * (i + 1))
    have hgap := particleTheta_gap (particleNumPoints 6 9 (rand 0)) i
      (rand (1 + 2 * i)) (rand (1 + 2 * (i + 1))) hn2 hAa hAb hBa hBb
    simp only [particlePoint]
    exact polar_point_ne _ _ _ _ (hradpos (2 + 2 * i)) (hradpos (2 + 2 * (i + 1)))
      hgap.1 hgap.2
  · obtain ⟨hAa, hAb⟩ := hrand 1
    obtain ⟨hBa, hBb⟩ := hrand (1 + 2 * (particleNumPoints 6 9 (rand 0) - 1))
    have hgap := particleTheta_wrap_gap (particleNumPoints 6 9 (rand 0))
      (rand 1) (rand (1 + 2 * (particleNumPoints 6 9 (rand 0) - 1))) hn2 hAa hAb hBa hBb
    simp only [particlePoint]
    exact polar_point_ne _ _ _ _ (hradpos 2)
      (hradpos (2 + 2 * (particleNumPoints 6 9 (rand 0) - 1))) hgap.1 hgap.2

/-- Witness for `particle_outline_sound` with every random draw equal to 1/2. -/
theorem particle_outline_sound_witness :
    6 ≤ particleNumPoints 6 9 ((fun _ : ℕ => (1:ℝ)/2) 0) ∧
    particleNumPoints 6 9 ((fun _ : ℕ => (1:ℝ)/2) 0) ≤ 9 ∧
    (createParticleGeometry 1 6 9 0.2 (fun _ : ℕ => (1:ℝ)/2)).length
      = particleNumPoints 6 9 ((fun _ : ℕ => (1:ℝ)/2) 0) ∧
    (∀ k : ℕ, 0 < particleRadius 1 0.2 ((fun _ : ℕ => (1:ℝ)/2) k)) ∧
    (∀ uA : ℝ, 0 ≤ uA → uA < 1 →
      |(uA - 0.5) * particleAngleStep (particleNumPoints 6 9 ((fun _ : ℕ => (1:ℝ)/2) 0)) * 0.5|
        < particleAngleStep (particleNumPoints 6 9 ((fun _ : ℕ => (1:ℝ)/2) 0)) / 2) ∧
    (∀ i : ℕ, i + 1 < particleNumPoints 6 9 ((fun _ : ℕ => (1:ℝ)/2) 0) →
      particlePoint 1 (particleNumPoints 6 9 ((fun _ : ℕ => (1:ℝ)/2) 0)) 0.2 i
          ((1:ℝ)/2) ((1:ℝ)/2)
        ≠ particlePoint 1 (particleNumPoints 6 9 ((fun _ : ℕ => (1:ℝ)/2) 0)) 0.2 (i + 1)
          ((1:ℝ)/2) ((1:ℝ)/2)) ∧
    particlePoint 1 (particleNumPoints 6 9 ((fun _ : ℕ => (1:ℝ)/2) 0)) 0.2 0
        ((1:ℝ)/2) ((1:ℝ)/2)
      ≠ particlePoint 1 (particleNumPoints 6 9 ((fun _ : ℕ => (1:ℝ)/2) 0)) 0.2
        (particleNumPoints 6 9 ((fun _ : ℕ => (1:ℝ)/2) 0) - 1)
        ((1:ℝ)/2) ((1:ℝ)/2) :=
  particle_outline_sound 1 (fun _ => (1:ℝ)/2) (by norm_num) (fun k => by norm_num)

/-- The global interaction/drift state (`State` in part_002):
`hasInteracted`, the `drift` oscillator parameters, and the shared
`interactionTarget` shape. -/
structure GlobalState where
  hasInteracted : Bool
  driftTime : ℝ
  driftSpeed : ℝ
  driftAmplitude : ℝ
  sizeVarAmp : ℝ
  curveVarAmp : ℝ
  targetXRadius : ℝ
  targetYRadius : ℝ
  targetRotation : ℝ

/-- The per-set state of `EllipseSetBase`: its entities and the timestamp of
the last drift cycle. -/
structure SetState where
  ellipses : List ArcState
  lastCycleTime : ℝ

/-- `EllipseSetBase.updateCycle` (part_002 lines 63-95): if the interaction
flag is off, do nothing; otherwise advance the shared drift time, derive the
three oscillator targets, and lerp every entity toward them before resetting
its drawing state. -/
def EllipseSetBase.updateCycle (g : GlobalState) (radiusScale : ℝ) (st : SetState) :
    GlobalState × SetState :=
  if g.hasInteracted = false then (g, st)
  else
    let time1 := g.driftTime + 0.05
    let rotDrift := Real.sin (time1 * g.driftSpeed) * g.driftAmplitude
    let currentCycleTargetRot := g.targetRotation + rotDrift
    let sizeVar := 1.0 + Real.sin (time1 * 0.3) * g.sizeVarAmp
    let currentCycleTargetX := g.targetXRadius * radiusScale * sizeVar
    let curveVar := 1.0 + Real.cos (time1 * 0.4) * g.curveVarAmp
    let currentCycleTargetY := g.targetYRadius * radiusScale * curveVar
    ({ g with driftTime := time1 },
     { st with ellipses := st.ellipses.map (fun e =>
         Ellipse.resetDrawingParams g.hasInteracted
           (driftEntity currentCycleTargetX currentCycleTargetY currentCycleTargetRot e)) })

/-- `EllipseSetBase.update` (part_002 lines 97-112): run a drift cycle when
`dt - lastCycleTime` exceeds `CYCLE_INTERVAL` (stamping `lastCycleTime := dt`
first), then — only when the interaction flag is on — update every entity and
report whether any of them is still animating. -/
def EllipseSetBase.update (g : GlobalState) (radiusScale : ℝ) (st : SetState) (dt : ℝ) :
    GlobalState × SetState × Bool :=
  let cycled :=
    if dt - st.lastCycleTime > CONFIG.CYCLE_INTERVAL
    then EllipseSetBase.updateCycle g radiusScale { st with lastCycleTime := dt }
    else (g, st)
  if cycled.1.hasInteracted = false then (cycled.1, cycled.2, false)
  else
    let results := cycled.2.ellipses.map (fun e => Ellipse.update cycled.1.hasInteracted e)
    (cycled.1, { cycled.2 with ellipses := results.map Prod.fst }, results.any Prod.snd)

/-- C10: while `hasInteracted` is false, `EllipseSetBase.update` leaves the
global state (including the drift time and targets) untouched, leaves every
entity — angles, radii, rotation, finished flag, mesh visibility — unchanged,
returns `false`, and the only set-level field it may change is
`lastCycleTime`; in particular ribbon meshes that were invisible stay invisible. -/
theorem set_update_inert_before_interaction (g : GlobalState) (radiusScale : ℝ)
    (st : SetState) (dt : ℝ) (h : g.hasInteracted = false) :
    EllipseSetBase.update g radiusScale st dt
      = (g, { st with lastCycleTime :=
          if dt - st.lastCycleTime > CONFIG.CYCLE_INTERVAL then dt else st.lastCycleTime },
         false) ∧
    ((∀ e ∈ st.ellipses, e.meshesVisible = false) →
      ∀ e ∈ (EllipseSetBase.update g radiusScale st dt).2.1.ellipses,
        e.meshesVisible = false) := by
  have hmain : EllipseSetBase.update g radiusScale st dt
      = (g, { st with lastCycleTime :=
          if dt - st.lastCycleTime > CONFIG.CYCLE_INTERVAL then dt else st.lastCycleTime },
         false) := by
    have hcyc1 : EllipseSetBase.updateCycle g radiusScale { st with lastCycleTime := dt }
        = (g, { st with lastCycleTime := dt }) := by
      rw [EllipseSetBase.updateCycle, if_pos h]
    rw [EllipseSetBase.update, hcyc1]
    split_ifs with hc <;> simp [h, hc]
  refine ⟨hmain, ?_⟩
  intro hinv e he
  rw [hmain] at he
  exact hinv e he

/-- Witness for `set_update_inert_before_interaction` at a concrete set. -/
theorem set_update_inert_before_interaction_witness :
    EllipseSetBase.update ⟨false, 0, 0.5, 0.05, 0.3, 0.3, 1, 0.5, 6⟩ 1
        ⟨[⟨1, 1, 0, 0, 0, 0, 0, -1, 1, 5, false, false⟩], 0⟩ 2
      = (⟨false, 0, 0.5, 0.05, 0.3, 0.3, 1, 0.5, 6⟩,
         { ellipses := [⟨1, 1, 0, 0, 0, 0, 0, -1, 1, 5, false, false⟩],
           lastCycleTime := if (2:ℝ) - 0 > CONFIG.CYCLE_INTERVAL then 2 else 0 },
         false) ∧
    ((∀ e ∈ [(⟨1, 1, 0, 0, 0, 0, 0, -1, 1, 5, false, false⟩ : ArcState)],
        e.meshesVisible = false) →
      ∀ e ∈ (EllipseSetBase.update ⟨false, 0, 0.5, 0.05, 0.3, 0.3, 1, 0.5, 6⟩ 1
          ⟨[⟨1, 1, 0, 0, 0, 0, 0, -1, 1, 5, false, false⟩], 0⟩ 2).2.1.ellipses,
        e.meshesVisible = false) :=
  set_update_inert_before_interaction ⟨false, 0, 0.5, 0.05, 0.3, 0.3, 1, 0.5, 6⟩ 1
    ⟨[⟨1, 1, 0, 0, 0, 0, 0, -1, 1, 5, false, false⟩], 0⟩ 2 rfl

/-- Witness for `c3_draw_timeline`: instantiating its bounded quantifiers at
concrete tick numbers. -/
theorem c3_draw_timeline_witness :
    (Ellipse.tickN 3 (c3State 0 0 false false)).currentEndAngle ≠ -(2 * Real.pi) ∧
    (Ellipse.tickN 11 (c3State 0 0 false false)).finished = false :=
  ⟨c3_draw_timeline.2.2.1 3 (by norm_num),
   c3_draw_timeline.2.2.2.2.1 11 (by norm_num)⟩
